import Mathlib

/-!
Shallow embedding of the ActSNClass core (src/actsnclass/query_strategies.py and
src/actsnclass/fit_lightcurves.py) and verification of the specification claims.

Modelling conventions:
* Python floats are modelled as rationals (ℚ); every probability and time value
  appearing in the claims is an exact decimal, and only order comparisons and
  exact arithmetic on such values are relied upon.
* ids are modelled as integers, row indices as naturals.
* A Python function that can raise is modelled as returning `Except PyError _`.
-/

/-- The Python exceptions observable in the modelled code paths. -/
inductive PyError
  | nameError
  | indexError
  | valueError
deriving DecidableEq

instance {ε α : Type} [DecidableEq ε] [DecidableEq α] : DecidableEq (Except ε α)
  | Except.ok a, Except.ok b =>
      if h : a = b then isTrue (by rw [h]) else isFalse (by intro hc; injection hc; contradiction)
  | Except.ok _, Except.error _ => isFalse (fun hc => Except.noConfusion hc)
  | Except.error _, Except.ok _ => isFalse (fun hc => Except.noConfusion hc)
  | Except.error e, Except.error f =>
      if h : e = f then isTrue (by rw [h]) else isFalse (by intro hc; injection hc; contradiction)

/-- Python's built-in `abs` on a real value. -/
def pyAbs (x : ℚ) : ℚ := if x < 0 then -x else x

theorem pyAbs_eq_abs (x : ℚ) : pyAbs x = |x| := by
  by_cases h : x < 0
  · rw [pyAbs, if_pos h, abs_of_neg h]
  · rw [pyAbs, if_neg h, abs_of_nonneg (le_of_not_lt h)]

/-! ### query_strategies.py -/

/-- Line 53: `dist = abs(class_prob[:, 1] - 0.5)`.  A row of `class_prob` is a
pair (binary classification, exactly two columns per the data model); column 1
is the second component. -/
def dist_to_boundary (class_prob : List (ℚ × ℚ)) : List ℚ :=
  class_prob.map (fun p => pyAbs (p.2 - 1/2))

/-- One insertion step of the insertion-sort kernel that numpy's default
argsort runs on every (sub)array of at most 16 elements — in particular on
every whole array of length ≤ 16, which covers all concrete inputs in this
development.  The imperative kernel inserts index `i` into the already sorted
prefix, scanning from the right and shifting entries while `v[i] < v[entry]`;
on a sorted prefix this places `i` exactly before the leftmost entry `a` with
`v[i] < v[a]`, which is what this left-to-right scan computes.  Out-of-range
lookups (impossible for indices produced by `argsortStable`) default to 0. -/
def argInsert (v : List ℚ) (i : ℕ) : List ℕ → List ℕ
  | [] => [i]
  | a :: as => if v.getD i 0 < v.getD a 0 then i :: a :: as else a :: argInsert v i as

/-- Line 56: `order = dist.argsort()` — indices of `v` arranged so that the
corresponding values are in increasing order, inserting indices 0,1,2,…
left to right (numpy's insertion regime; ties keep original index order). -/
def argsortStable (v : List ℚ) : List ℕ :=
  (List.range v.length).foldl (fun acc i => argInsert v i acc) []

/-- Interface assumption on an argsort implementation: every produced index is
a valid row index.  Any sorting kind numpy offers satisfies this (each returns
a permutation of `range n`). -/
def InRangeSort (f : List ℚ → List ℕ) : Prop :=
  ∀ v : List ℚ, ∀ i ∈ f v, i < v.length

/-- Lines 52–63 of `uncertainty_sampling(class_prob, test_ids, queryable_ids,
batch, screen)`: the `final_order` value.  The sorting function is an explicit
parameter standing for `np.argsort` (the source pins no `kind`, so properties
proved for every in-range sort are independent of the library's tie order).

* line 53: `dist = abs(class_prob[:, 1] - 0.5)`
* line 56: `order = dist.argsort()`
* lines 59–63: `flag = test_ids[order].isin(queryable_ids)`;
  `final_order = order[flag]` — i.e. keep, in order, the indices whose id is
  queryable.
* lines 65–72: when `screen` is true the diagnostic block evaluates
  `final_order[0]`, which raises IndexError whenever `final_order` is empty
  (all other subscripts in the block are then in range: a nonempty
  `final_order` forces a nonempty `order`, `final_order[0]` occurs in `order`,
  and argsort indices are valid rows of `class_prob`).
* line 75: `return list(final_order)[:batch]`.

The theorems about this function carry the alignment hypothesis
`test_ids.length = class_prob.length` of the QueryPool data model (with
misaligned inputs the Python code raises IndexError in `test_ids[order]`,
which this total model does not reproduce). -/
def final_order_of (argsortFn : List ℚ → List ℕ) (class_prob : List (ℚ × ℚ))
    (test_ids : List ℤ) (queryable_ids : List ℤ) : List ℕ :=
  (argsortFn (dist_to_boundary class_prob)).filter
    (fun i => decide (test_ids.getD i 0 ∈ queryable_ids))

/-- The body of `uncertainty_sampling` around its `final_order` value: the
screen branch (lines 65–72), then `return list(final_order)[:batch]`
(line 75).  See the comment on `final_order_of` for the line-by-line
correspondence. -/
def uncertainty_sampling (argsortFn : List ℚ → List ℕ) (class_prob : List (ℚ × ℚ))
    (test_ids : List ℤ) (queryable_ids : List ℤ) (batch : ℕ) (screen : Bool) :
    Except PyError (List ℕ) :=
  if screen then
    match final_order_of argsortFn class_prob test_ids queryable_ids with
    | [] => Except.error PyError.indexError
    | _ :: _ =>
        Except.ok ((final_order_of argsortFn class_prob test_ids queryable_ids).take batch)
  else
    Except.ok ((final_order_of argsortFn class_prob test_ids queryable_ids).take batch)

/-- Lines 78–120: `random_sampling(test_ids, queryable_ids, batch, seed)`.
`np.random.seed(seed)` always succeeds; `np.random.randint(low=0,
high=len(test_ids), size=len(test_ids))` raises ValueError when
`len(test_ids) == 0` (empty range `low >= high`) and otherwise succeeds with a
value that is never consumed before the failure on line 109: that line reads
the name `order`, which is bound neither in `random_sampling` nor at module
scope, so the call raises NameError before anything is returned.  The `batch`
and `seed` arguments and the drawn indices are therefore irrelevant to the
observable result. -/
def random_sampling (test_ids queryable_ids : List ℤ) (batch : ℕ) (seed : ℕ) :
    Except PyError (List ℕ) :=
  if test_ids.length = 0 then Except.error PyError.valueError
  else Except.error PyError.nameError

theorem mem_argInsert {v : List ℚ} {i x : ℕ} :
    ∀ {l : List ℕ}, x ∈ argInsert v i l → x = i ∨ x ∈ l := by
  intro l
  induction l with
  | nil => intro h; simpa [argInsert] using h
  | cons a as ih =>
      intro h
      rw [argInsert] at h
      by_cases hc : v.getD i 0 < v.getD a 0
      · rw [if_pos hc] at h
        rcases List.mem_cons.mp h with h1 | h2
        · exact Or.inl h1
        · exact Or.inr h2
      · rw [if_neg hc] at h
        rcases List.mem_cons.mp h with h1 | h2
        · exact Or.inr (List.mem_cons.mpr (Or.inl h1))
        · rcases ih h2 with h3 | h4
          · exact Or.inl h3
          · exact Or.inr (List.mem_cons.mpr (Or.inr h4))

theorem mem_foldl_argInsert {v : List ℚ} {x : ℕ} :
    ∀ (xs acc : List ℕ), x ∈ xs.foldl (fun a j => argInsert v j a) acc → x ∈ acc ∨ x ∈ xs := by
  intro xs
  induction xs with
  | nil => intro acc h; exact Or.inl h
  | cons y ys ih =>
      intro acc h
      rcases ih (argInsert v y acc) h with h1 | h2
      · rcases mem_argInsert h1 with h3 | h4
        · exact Or.inr (List.mem_cons.mpr (Or.inl h3))
        · exact Or.inl h4
      · exact Or.inr (List.mem_cons.mpr (Or.inr h2))

/-- Every index produced by `argsortStable` is a valid row index. -/
theorem argsortStable_inRange : InRangeSort argsortStable := by
  intro v i hi
  rcases mem_foldl_argInsert (List.range v.length) [] hi with h1 | h2
  · cases h1
  · exact List.mem_range.mp h2

/-! ### fit_lightcurves.py -/

/-- A value produced by the external fitter `fit_scipy` for one parameter:
a finite number, NaN, or a signed infinity (the IEEE values a numpy float can
hold). -/
inductive FitVal
  | num (q : ℚ)
  | nan
  | inf
  | ninf
deriving DecidableEq

/-- Line 197: the test `str(item) == 'nan'` applied to one parameter.  The
Python `str` of a float is `'nan'` exactly for NaN; infinities print as
`'inf'`/`'-inf'` and never match. -/
def strEqNan : FitVal → Bool
  | FitVal.nan => true
  | _ => false

/-- One photometry row (the columns of `self.photometry` that
`fit_bazin`/`fit_bazin_all` read: `mjd`, `band`, `flux`; `fluxerr` and `SNR`
are never consumed by the fitting code). -/
structure Obs where
  mjd : ℚ
  band : String
  flux : ℚ
deriving DecidableEq

/-- Lines 171/192: `filter_flag = self.photometry['band'] == band` and the
rows it selects, in order. -/
def matchedBand (photometry : List Obs) (band : String) : List Obs :=
  photometry.filter (fun o => o.band == band)

/-- Lines 174–178: the two argument arrays passed to `fit_scipy`:
`time - time[0]` and `flux` of the rows matching `band`.  `time[0]` is the
first matching row's time (not the minimum); on an empty selection Python
would raise IndexError — `fit_bazin` is only invoked by `fit_bazin_all` with
at least 5 matching rows, and the model defaults `time[0]` to 0 there. -/
def bazin_args (photometry : List Obs) (band : String) : List ℚ × List ℚ :=
  let time := (matchedBand photometry band).map Obs.mjd
  let flux := (matchedBand photometry band).map Obs.flux
  (time.map (fun t => t - time.headD 0), flux)

/-- Lines 156–180: `fit_bazin(band)` — call the external fitter on the shifted
times and fluxes of the matching rows.  The fitter itself lives in `bazin.py`
(not under src/), so it is an explicit function parameter. -/
def fit_bazin (fit : List ℚ → List ℚ → List FitVal) (photometry : List Obs)
    (band : String) : List FitVal :=
  fit (bazin_args photometry band).1 (bazin_args photometry band).2

/-- Lines 190–205: the body of the `for band in self.filters` loop of
`fit_bazin_all` — the features appended for one band:
* if at most 4 rows match the band, five `'None'` markers (no fit attempted);
* otherwise run the fit; if any returned parameter has `str(item) == 'nan'`
  (`sum([...]) != 0`), five `'None'` markers, else the returned parameters.
`'None'` is modelled as `Option.none`, an appended parameter as `some v`. -/
def bazinBlock (fit : List ℚ → List ℚ → List FitVal) (photometry : List Obs)
    (band : String) : List (Option FitVal) :=
  if 4 < (matchedBand photometry band).length then
    if (fit_bazin fit photometry band).countP strEqNan = 0 then
      (fit_bazin fit photometry band).map some
    else List.replicate 5 Option.none
  else List.replicate 5 Option.none

/-- Lines 182–205: `fit_bazin_all()` — start from an empty feature list and
append each band's block in filter order. -/
def fit_bazin_all (fit : List ℚ → List ℚ → List FitVal) (filters : List String)
    (photometry : List Obs) : List (Option FitVal) :=
  filters.foldl (fun acc band => acc ++ bazinBlock fit photometry band) []

/-- Lines 95–96: the SNPCC simulation codes labelled SN-II. -/
def snii : List String :=
  ["2", "3", "4", "12", "15", "17", "19", "20", "21", "24", "25", "26",
   "27", "30", "31", "32", "33", "34", "35", "36", "37", "38", "39", "40",
   "41", "42", "43", "44"]

/-- Lines 98–99: the SNPCC simulation codes labelled SN-Ibc. -/
def snibc : List String :=
  ["1", "5", "6", "7", "8", "9", "10", "11", "13", "14", "16", "18",
   "22", "23", "29", "45", "28"]

/-- Lines 129–138 of `load_snpcc_lc`: the `SIM_NON1a:` branch mapping a
simulation code to `sntype`, raising `ValueError('Unknown supernova type!')`
when the code is in neither membership list and is not `'0'`. -/
def load_snpcc_sntype (code : String) : Except PyError String :=
  if code ∈ snibc then Except.ok "Ibc"
  else if code ∈ snii then Except.ok "II"
  else if code = "0" then Except.ok "Ia"
  else Except.error PyError.valueError

theorem foldl_append_eq_flatten {α β : Type} (g : β → List α) :
    ∀ (l : List β) (acc : List α),
      l.foldl (fun a b => a ++ g b) acc = acc ++ (l.map g).flatten := by
  intro l
  induction l with
  | nil => intro acc; simp
  | cons b bs ih =>
      intro acc
      rw [List.foldl_cons, ih (acc ++ g b), List.map_cons, List.flatten_cons,
        List.append_assoc]

/-- `fit_bazin_all` is the concatenation of the per-band blocks, in band
order. -/
theorem fit_bazin_all_eq_flatten (fit : List ℚ → List ℚ → List FitVal)
    (filters : List String) (photometry : List Obs) :
    fit_bazin_all fit filters photometry =
      (filters.map (bazinBlock fit photometry)).flatten := by
  rw [fit_bazin_all, foldl_append_eq_flatten, List.nil_append]

/-- Whatever the fitter returns, as long as it returns 5 parameters a band
contributes exactly 5 feature slots. -/
theorem bazinBlock_length (fit : List ℚ → List ℚ → List FitVal)
    (hfit : ∀ t f, (fit t f).length = 5) (photometry : List Obs) (band : String) :
    (bazinBlock fit photometry band).length = 5 := by
  rw [bazinBlock]
  by_cases h4 : 4 < (matchedBand photometry band).length
  · rw [if_pos h4]
    by_cases hn : (fit_bazin fit photometry band).countP strEqNan = 0
    · rw [if_pos hn, List.length_map, fit_bazin, hfit]
    · rw [if_neg hn, List.length_replicate]
  · rw [if_neg h4, List.length_replicate]

theorem flatten_drop_take_of_length (α : Type) :
    ∀ (L : List (List α)) (k : ℕ), (∀ b ∈ L, b.length = 5) → k < L.length →
      ((L.flatten.drop (5 * k)).take 5) = L.getD k [] := by
  intro L
  induction L with
  | nil => intro k _ hk; exact absurd hk (by simp)
  | cons b rest ih =>
      intro k hlen hk
      cases k with
      | zero =>
          rw [Nat.mul_zero, List.flatten_cons, List.drop_zero, List.getD_cons_zero]
          exact List.take_left' (hlen b (List.mem_cons_self b rest))
      | succ k =>
          have hb : b.length = 5 := hlen b (List.mem_cons_self b rest)
          have hrest : ∀ x ∈ rest, x.length = 5 := fun x hx =>
            hlen x (List.mem_cons.mpr (Or.inr hx))
          have hk' : k < rest.length := by simpa using Nat.lt_of_succ_lt_succ (by simpa using hk)
          rw [List.flatten_cons, List.getD_cons_succ]
          have hmul : 5 * (k + 1) = 5 + 5 * k := by ring
          rw [hmul, ← List.drop_drop, List.drop_left' hb]
          exact ih k hrest hk'

/-- The 5 slots of band `k` in the full feature vector are that band's block. -/
theorem fit_bazin_all_slots (fit : List ℚ → List ℚ → List FitVal)
    (hfit : ∀ t f, (fit t f).length = 5) (filters : List String)
    (photometry : List Obs) (k : ℕ) (hk : k < filters.length) :
    ((fit_bazin_all fit filters photometry).drop (5 * k)).take 5 =
      bazinBlock fit photometry (filters.get ⟨k, hk⟩) := by
  rw [fit_bazin_all_eq_flatten]
  have h1 : ∀ b ∈ filters.map (bazinBlock fit photometry), b.length = 5 := by
    intro b hb
    rcases List.mem_map.mp hb with ⟨band, _, rfl⟩
    exact bazinBlock_length fit hfit photometry band
  have hk' : k < (filters.map (bazinBlock fit photometry)).length := by simpa using hk
  rw [flatten_drop_take_of_length _ _ k h1 hk']
  rw [List.getD_eq_getElem?_getD, List.getElem?_map,
    List.getElem?_eq_getElem hk]
  rfl

/-! ### Claims C1–C3 -/

theorem getD_mem_of_lt {l : List ℤ} {i : ℕ} (h : i < l.length) : l.getD i 0 ∈ l := by
  rw [List.getD_eq_getElem _ _ h]
  exact List.getElem_mem h

/-- When no test id is queryable, the boolean mask is all-False and
`final_order` is empty. -/
theorem final_order_of_eq_nil (f : List ℚ → List ℕ) (hf : InRangeSort f)
    (cp : List (ℚ × ℚ)) (tids q : List ℤ) (halign : tids.length = cp.length)
    (hdisj : ∀ x ∈ tids, x ∉ q) : final_order_of f cp tids q = [] := by
  rw [final_order_of]
  apply List.filter_eq_nil_iff.mpr
  intro i hi
  have hlt : i < tids.length := by
    have h1 := hf (dist_to_boundary cp) i hi
    rwa [dist_to_boundary, List.length_map, ← halign] at h1
  simp only [decide_eq_true_eq]
  exact hdisj _ (getD_mem_of_lt hlt)

/-- The test vector of the spec (§8): probabilities, aligned ids, queryable
set, batch 2. -/
def class_prob_ex : List (ℚ × ℚ) := [(9/10, 1/10), (1/2, 1/2), (3/5, 2/5), (19/20, 1/20)]

def test_ids_ex : List ℤ := [10, 20, 30, 40]

def queryable_ids_ex : List ℤ := [10, 30]

theorem us_ex_eval : uncertainty_sampling argsortStable class_prob_ex test_ids_ex
    queryable_ids_ex 2 false = Except.ok [2, 0] := by
  norm_num [uncertainty_sampling, final_order_of, dist_to_boundary, pyAbs,
    argsortStable, argInsert, class_prob_ex, test_ids_ex, queryable_ids_ex,
    List.range_succ]

/-- C1 counterexample: on the spec's test vector the function does not return
the id list `[30, 10]`; it returns `[2, 0]` — the row positions of those ids.
(For a 4-row pool, `argsortStable` is exactly the insertion sort numpy's
default argsort runs.) -/
theorem C1_counterexample :
    uncertainty_sampling argsortStable class_prob_ex test_ids_ex queryable_ids_ex 2 false =
      Except.ok [2, 0] ∧
    uncertainty_sampling argsortStable class_prob_ex test_ids_ex queryable_ids_ex 2 false ≠
      Except.ok [30, 10] := by
  refine ⟨us_ex_eval, ?_⟩
  rw [us_ex_eval]
  decide

/-- C1 (amended): on the spec's test vector, `uncertainty_sampling` returns
the row positions `[2, 0]` — the position of the row with distance 0.1 from
0.5 first, then the one with distance 0.4; position 1 (distance 0, id 20) is
excluded because id 20 is not queryable — and the ids sitting at those
positions of `test_ids` are `[30, 10]` in that order. -/
theorem C1_returns_positions_of_ids :
    uncertainty_sampling argsortStable class_prob_ex test_ids_ex queryable_ids_ex 2 false =
      Except.ok [2, 0] ∧
    [2, 0].map (fun i => test_ids_ex.getD i 0) = [30, 10] := by
  refine ⟨us_ex_eval, ?_⟩
  decide

/-- C2: `random_sampling` never returns — every call with a nonempty
`test_ids` raises NameError (line 109 reads the unbound name `order`), so no
pair of calls can return identical sequences.  (With empty `test_ids` the call
raises ValueError inside `np.random.randint` instead.) -/
theorem C2_random_sampling_always_raises :
    ∀ (test_ids queryable_ids : List ℤ) (batch seed : ℕ), test_ids ≠ [] →
      random_sampling test_ids queryable_ids batch seed = Except.error PyError.nameError := by
  intro t q b s ht
  rw [random_sampling, if_neg (fun h => ht (List.length_eq_zero.mp h))]

theorem C2_witness :
    random_sampling [10] [10] 1 42 = Except.error PyError.nameError :=
  C2_random_sampling_always_raises [10] [10] 1 42 (by decide)

/-- C3: with `screen` at its default False, `uncertainty_sampling` returns
`[]` for `batch = 0` and returns `[]` whenever no element of `test_ids` is
queryable, for every batch and every in-range sorting function; but
`random_sampling` raises NameError instead of returning `[]` (shown at the
concrete input `test_ids=[10]`, `queryable_ids=[]`, `batch=0`, `seed=42`). -/
theorem C3_empty_results :
    (∀ (f : List ℚ → List ℕ) (cp : List (ℚ × ℚ)) (tids q : List ℤ),
        InRangeSort f → tids.length = cp.length →
        uncertainty_sampling f cp tids q 0 false = Except.ok []) ∧
    (∀ (f : List ℚ → List ℕ) (cp : List (ℚ × ℚ)) (tids q : List ℤ) (b : ℕ),
        InRangeSort f → tids.length = cp.length → (∀ x ∈ tids, x ∉ q) →
        uncertainty_sampling f cp tids q b false = Except.ok []) ∧
    random_sampling [10] [] 0 42 = Except.error PyError.nameError := by
  refine ⟨?_, ?_, rfl⟩
  · intro f cp tids q _ _
    simp [uncertainty_sampling]
  · intro f cp tids q b hf halign hdisj
    have h0 := final_order_of_eq_nil f hf cp tids q halign hdisj
    simp [uncertainty_sampling, h0]

theorem C3_witness :
    uncertainty_sampling argsortStable [(9/10, 1/10)] [10] [20] 0 false = Except.ok [] ∧
    uncertainty_sampling argsortStable [(9/10, 1/10)] [10] [20] 3 false = Except.ok [] :=
  ⟨C3_empty_results.1 argsortStable [(9/10, 1/10)] [10] [20] argsortStable_inRange rfl,
   C3_empty_results.2.1 argsortStable [(9/10, 1/10)] [10] [20] 3 argsortStable_inRange rfl
     (by decide)⟩

/-! ### Claim C10 -/

/-- C10: with `screen=True`, a call in which no element of `test_ids` is
queryable reaches `list(order).index(final_order[0])` with `final_order`
empty and raises IndexError; with `screen=False` the same inputs yield the
empty sequence.  Holds for every in-range sorting function. -/
theorem C10_screen_raises_on_empty_pool :
    ∀ (f : List ℚ → List ℕ) (cp : List (ℚ × ℚ)) (tids q : List ℤ) (b : ℕ),
      InRangeSort f → tids.length = cp.length → (∀ x ∈ tids, x ∉ q) →
      uncertainty_sampling f cp tids q b true = Except.error PyError.indexError ∧
      uncertainty_sampling f cp tids q b false = Except.ok [] := by
  intro f cp tids q b hf halign hdisj
  have h0 := final_order_of_eq_nil f hf cp tids q halign hdisj
  constructor
  · simp [uncertainty_sampling, h0]
  · simp [uncertainty_sampling, h0]

theorem C10_witness :
    uncertainty_sampling argsortStable [(9/10, 1/10)] [10] [20] 1 true =
      Except.error PyError.indexError ∧
    uncertainty_sampling argsortStable [(9/10, 1/10)] [10] [20] 1 false = Except.ok [] :=
  C10_screen_raises_on_empty_pool argsortStable [(9/10, 1/10)] [10] [20] 1
    argsortStable_inRange rfl (by decide)

/-! ### Claims C4–C6 -/

/-- C4: for every fitter returning 5 parameters per call (the shape fixed for
`fit_scipy` by §4.1), the feature vector has length exactly `5 * |filters|`,
whatever the photometry. -/
theorem C4_feature_vector_length :
    ∀ (fit : List ℚ → List ℚ → List FitVal), (∀ t f, (fit t f).length = 5) →
      ∀ (filters : List String) (photometry : List Obs),
        (fit_bazin_all fit filters photometry).length = 5 * filters.length := by
  intro fit hfit filters ph
  rw [fit_bazin_all_eq_flatten]
  induction filters with
  | nil => rfl
  | cons b bs ih =>
      rw [List.map_cons, List.flatten_cons, List.length_append, ih,
        bazinBlock_length fit hfit ph b, List.length_cons]
      ring

/-- A fitter returning five zeros, used to instantiate witnesses. -/
def fitConst : List ℚ → List ℚ → List FitVal := fun _ _ => List.replicate 5 (FitVal.num 0)

theorem C4_witness : (fit_bazin_all fitConst ["g", "r", "i", "z"] []).length = 5 * 4 :=
  C4_feature_vector_length fitConst (fun _ _ => rfl) ["g", "r", "i", "z"] []

/-- C5: a band whose matching photometry has at most 4 rows contributes five
`'None'` markers at its position in the feature vector, for every fitter —
the fit is never attempted and processing continues with the next band. -/
theorem C5_insufficient_data_skips_fit :
    ∀ (fit : List ℚ → List ℚ → List FitVal), (∀ t f, (fit t f).length = 5) →
      ∀ (filters : List String) (photometry : List Obs) (k : ℕ) (hk : k < filters.length),
        (matchedBand photometry (filters.get ⟨k, hk⟩)).length ≤ 4 →
        ((fit_bazin_all fit filters photometry).drop (5 * k)).take 5 =
          List.replicate 5 Option.none := by
  intro fit hfit filters ph k hk hle
  rw [fit_bazin_all_slots fit hfit filters ph k hk, bazinBlock,
    if_neg (Nat.not_lt.mpr hle)]

theorem C5_witness :
    ((fit_bazin_all fitConst ["g"] []).drop (5 * 0)).take 5 = List.replicate 5 Option.none :=
  C5_insufficient_data_skips_fit fitConst (fun _ _ => rfl) ["g"] [] 0 (by decide) (by decide)

/-- Five photometry rows in band g (so the `> 4` branch is taken). -/
def ph5 : List Obs := [⟨0, "g", 1⟩, ⟨1, "g", 1⟩, ⟨2, "g", 1⟩, ⟨3, "g", 1⟩, ⟨4, "g", 1⟩]

/-- A fitter whose result has an infinite first parameter and finite others. -/
def fitInf : List ℚ → List ℚ → List FitVal :=
  fun _ _ => [FitVal.inf, FitVal.num 1, FitVal.num 1, FitVal.num 1, FitVal.num 1]

/-- C6 counterexample: a fit result whose first parameter is non-finite
(+inf) passes the `str(item) == 'nan'` test, so the extractor emits it as a
value mixed with the finite parameters instead of five Missing markers. -/
theorem C6_counterexample :
    fit_bazin_all fitInf ["g"] ph5 =
      [some FitVal.inf, some (FitVal.num 1), some (FitVal.num 1), some (FitVal.num 1),
        some (FitVal.num 1)] ∧
    fit_bazin_all fitInf ["g"] ph5 ≠ List.replicate 5 Option.none := by
  constructor
  · rfl
  · decide

/-- C6 (amended): for a band with more than 4 matching rows, the extractor
replaces the whole block by five Missing markers exactly when some returned
parameter is NaN (`str(item) == 'nan'`); otherwise the returned parameters —
including any infinities — are emitted unchanged. -/
theorem C6_nan_only_gate :
    ∀ (fit : List ℚ → List ℚ → List FitVal), (∀ t f, (fit t f).length = 5) →
      ∀ (filters : List String) (photometry : List Obs) (k : ℕ) (hk : k < filters.length),
        4 < (matchedBand photometry (filters.get ⟨k, hk⟩)).length →
        ((fit_bazin fit photometry (filters.get ⟨k, hk⟩)).countP strEqNan ≠ 0 →
          ((fit_bazin_all fit filters photometry).drop (5 * k)).take 5 =
            List.replicate 5 Option.none) ∧
        ((fit_bazin fit photometry (filters.get ⟨k, hk⟩)).countP strEqNan = 0 →
          ((fit_bazin_all fit filters photometry).drop (5 * k)).take 5 =
            (fit_bazin fit photometry (filters.get ⟨k, hk⟩)).map some) := by
  intro fit hfit filters ph k hk h4
  constructor
  · intro hn
    rw [fit_bazin_all_slots fit hfit filters ph k hk, bazinBlock, if_pos h4, if_neg hn]
  · intro hn
    rw [fit_bazin_all_slots fit hfit filters ph k hk, bazinBlock, if_pos h4, if_pos hn]

/-- A fitter whose result has a NaN first parameter. -/
def fitNan : List ℚ → List ℚ → List FitVal :=
  fun _ _ => [FitVal.nan, FitVal.num 1, FitVal.num 1, FitVal.num 1, FitVal.num 1]

theorem C6_witness :
    ((fit_bazin_all fitNan ["g"] ph5).drop (5 * 0)).take 5 = List.replicate 5 Option.none :=
  (C6_nan_only_gate fitNan (fun _ _ => rfl) ["g"] ph5 0 (by decide) (by decide)).1 (by decide)

/-! ### Claims C8–C9 -/

/-- The two membership lists are disjoint, so the order of the `elif` chain
never hides a match. -/
theorem snii_snibc_disjoint : ∀ c ∈ snii, c ∉ snibc := by decide

/-- C8: codes in the Ibc list map to Ibc, codes in the II list map to II,
code `'0'` maps to Ia, and every other code raises
`ValueError('Unknown supernova type!')`, aborting the record. -/
theorem C8_label_mapping :
    ∀ code : String,
      (code ∉ snii → code ∉ snibc → code ≠ "0" →
        load_snpcc_sntype code = Except.error PyError.valueError) ∧
      (code ∈ snibc → load_snpcc_sntype code = Except.ok "Ibc") ∧
      (code ∈ snii → load_snpcc_sntype code = Except.ok "II") ∧
      (code = "0" → load_snpcc_sntype code = Except.ok "Ia") := by
  intro code
  refine ⟨?_, ?_, ?_, ?_⟩
  · intro h1 h2 h3
    rw [load_snpcc_sntype, if_neg h2, if_neg h1, if_neg h3]
  · intro h
    rw [load_snpcc_sntype, if_pos h]
  · intro h
    rw [load_snpcc_sntype, if_neg (snii_snibc_disjoint code h), if_pos h]
  · intro h
    subst h
    decide

theorem C8_witness :
    load_snpcc_sntype "46" = Except.error PyError.valueError ∧
    load_snpcc_sntype "1" = Except.ok "Ibc" ∧
    load_snpcc_sntype "2" = Except.ok "II" ∧
    load_snpcc_sntype "0" = Except.ok "Ia" :=
  ⟨(C8_label_mapping "46").1 (by decide) (by decide) (by decide),
   (C8_label_mapping "1").2.1 (by decide),
   (C8_label_mapping "2").2.2.1 (by decide),
   (C8_label_mapping "0").2.2.2 rfl⟩

/-- Five band-g rows whose times are not chronological: the first row is not
the earliest observation. -/
def ph_unsorted : List Obs :=
  [⟨3, "g", 1⟩, ⟨1, "g", 1⟩, ⟨4, "g", 1⟩, ⟨5, "g", 1⟩, ⟨6, "g", 1⟩]

/-- C9 counterexample: `fit_bazin` shifts by `time[0]`, the first matching
row's time, not the minimum.  With matched times `[3, 1, 4, 5, 6]` the fitter
receives `[0, -2, 1, 2, 3]` — not the min-shifted `[2, 0, 3, 4, 5]` — and a
shifted time is negative. -/
theorem C9_counterexample :
    (bazin_args ph_unsorted "g").1 = [0, -2, 1, 2, 3] ∧
    (bazin_args ph_unsorted "g").1 ≠ [2, 0, 3, 4, 5] ∧
    ¬ (∀ x ∈ (bazin_args ph_unsorted "g").1, (0 : ℚ) ≤ x) := by
  have h : (bazin_args ph_unsorted "g").1 = [0, -2, 1, 2, 3] := by
    norm_num [bazin_args, matchedBand, ph_unsorted]
  refine ⟨h, ?_, ?_⟩
  · rw [h]
    norm_num
  · rw [h]
    intro hall
    have hm : (-2 : ℚ) ∈ [(0 : ℚ), -2, 1, 2, 3] := by norm_num
    have h2 := hall (-2) hm
    norm_num at h2

/-- C9 (amended): the caller shifts the band's times by the first matching
observation's time `time[0]`.  Whenever that first time is a lower bound of
the matched times — in particular for chronologically ordered photometry —
it is their minimum, the shift equals subtracting the minimum, and every
shifted time is non-negative. -/
theorem C9_shift_by_first_time :
    ∀ (photometry : List Obs) (band : String),
      (matchedBand photometry band).map Obs.mjd ≠ [] →
      (∀ t ∈ (matchedBand photometry band).map Obs.mjd,
        ((matchedBand photometry band).map Obs.mjd).headD 0 ≤ t) →
      (bazin_args photometry band).1 =
        ((matchedBand photometry band).map Obs.mjd).map
          (fun t => t - ((matchedBand photometry band).map Obs.mjd).headD 0) ∧
      ((matchedBand photometry band).map Obs.mjd).headD 0 ∈
        (matchedBand photometry band).map Obs.mjd ∧
      (∀ x ∈ (bazin_args photometry band).1, 0 ≤ x) := by
  intro ph band hne hfirst
  refine ⟨rfl, ?_, ?_⟩
  · cases hts : (matchedBand ph band).map Obs.mjd with
    | nil => exact absurd hts hne
    | cons t ts =>
        rw [List.headD_cons]
        exact List.mem_cons_self t ts
  · intro x hx
    rcases List.mem_map.mp hx with ⟨t, ht, rfl⟩
    have h1 := hfirst t ht
    linarith

/-- Two chronologically ordered band-g rows. -/
def ph_sorted : List Obs := [⟨1, "g", 1⟩, ⟨3, "g", 2⟩]

theorem C9_witness :
    (bazin_args ph_sorted "g").1 =
      ((matchedBand ph_sorted "g").map Obs.mjd).map
        (fun t => t - ((matchedBand ph_sorted "g").map Obs.mjd).headD 0) ∧
    ((matchedBand ph_sorted "g").map Obs.mjd).headD 0 ∈
      (matchedBand ph_sorted "g").map Obs.mjd ∧
    (∀ x ∈ (bazin_args ph_sorted "g").1, 0 ≤ x) :=
  C9_shift_by_first_time ph_sorted "g"
    (by norm_num [matchedBand, ph_sorted]; exact List.cons_ne_nil 1 [3])
    (by norm_num [matchedBand, ph_sorted])
